import Mathlib

/-!
Verification development for the lottie background-render lifecycle in
`src/components/lvgl/lottie_loader.h`.

The header carries three iterative variants of the subsystem.  The second
variant (the current one, with `is_paused` and `initial_hidden`) is embedded
in full; of the first variant only `lottie_free_resources` is embedded
(as `lottie_free_resources_v1`), because it is the only variant that
force-deletes the worker task.

Modelling conventions:
* Pointers (`pixel_buffer`, `task_stack`, `task_tcb`, `task_handle`,
  `exec_cb`) are modelled as presence booleans; the engine-side handles the
  code never branches on are dropped.
* `heap_caps_malloc` / `heap_caps_free` are abstracted by a `Heap` record
  counting allocations and frees; malloc success is an oracle (`LaunchEnv`).
* Ticks are in milliseconds: `pdMS_TO_TICKS` is the identity and
  `portTICK_PERIOD_MS` is 1, which keeps the code's unit arithmetic exact.
* The FreeRTOS task body `lottie_load_task` is a function of a visibility
  schedule `hidden : Nat → Bool` (the value of `lv_obj_has_flag(obj,
  LV_OBJ_FLAG_HIDDEN)` at each tick, incorporating all writers of that
  engine-owned flag) and a fuel bound for the unbounded `while` loop.
  Each loop iteration is treated as instantaneous at tick `now`; time
  advances at the `vTaskDelay` calls, exactly by the delay amount.
* C integer divisions here only ever see non-negative operands, so they are
  Nat divisions; `int32_t` frame numbers are `Int`.
-/

namespace LottieLoader

/-- Allocation accounting for `heap_caps_malloc`/`heap_caps_free`:
`allocs` counts successful allocations, `frees` counts frees. -/
structure Heap where
  allocs : Nat
  frees : Nat
deriving Repr, DecidableEq

/-- One successful `heap_caps_malloc`. -/
def Heap.alloc (h : Heap) : Heap := { h with allocs := h.allocs + 1 }

/-- One `heap_caps_free`. -/
def Heap.free (h : Heap) : Heap := { h with frees := h.frees + 1 }

/-- `LottieContext` of the current variant (lines 360–384 of the header):
pointer fields become presence booleans, and the widget's
`LV_OBJ_FLAG_HIDDEN` flag is carried as `obj_hidden`. -/
structure LottieContext where
  loop : Bool
  auto_start : Bool
  width : Nat
  height : Nat
  exec_cb : Bool
  start_frame : Int
  end_frame : Int
  duration_ms : Nat
  data_loaded : Bool
  pixel_buffer : Bool
  task_stack : Bool
  task_tcb : Bool
  task_handle : Bool
  stop_requested : Bool
  is_paused : Bool
  initial_hidden : Bool
  obj_hidden : Bool
deriving Repr, DecidableEq

/-- The zero-initialised context produced by `memset(ctx, 0, sizeof(...))`. -/
def zeroContext : LottieContext :=
  { loop := false, auto_start := false, width := 0, height := 0
    exec_cb := false, start_frame := 0, end_frame := 0, duration_ms := 0
    data_loaded := false, pixel_buffer := false, task_stack := false
    task_tcb := false, task_handle := false, stop_requested := false
    is_paused := false, initial_hidden := false, obj_hidden := false }

/-- Animation parameters read from `lv_lottie_get_anim` on a successful
first parse (`anim != nullptr`). -/
structure AnimParams where
  exec_cb : Bool
  start_frame : Int
  end_frame : Int
  duration_ms : Nat
deriving Repr, DecidableEq

/-- Oracle for the fallible external calls inside `lottie_launch`: which of
the three `heap_caps_malloc` calls succeed and whether `xTaskCreateStatic`
returns a non-null handle. -/
structure LaunchEnv where
  buf_ok : Bool
  stack_ok : Bool
  tcb_ok : Bool
  spawn_ok : Bool
deriving Repr, DecidableEq

/-- `lottie_free_resources`, current variant (lines 570–580): runs
`lottie_wait_task_stop` (whose only context-state effect, absent a live
concurrent worker, is setting `stop_requested`), frees whichever of
`task_stack`, `task_tcb`, `pixel_buffer` are non-null, then resets
`stop_requested` and `is_paused`.  It never touches `task_handle`. -/
def lottie_free_resources (c : LottieContext) (h : Heap) : LottieContext × Heap :=
  let c := { c with stop_requested := true }
  let sh : LottieContext × Heap :=
    if c.task_stack then ({ c with task_stack := false }, h.free) else (c, h)
  let th : LottieContext × Heap :=
    if sh.1.task_tcb then ({ sh.1 with task_tcb := false }, sh.2.free) else sh
  let ph : LottieContext × Heap :=
    if th.1.pixel_buffer then ({ th.1 with pixel_buffer := false }, th.2.free) else th
  ({ ph.1 with stop_requested := false, is_paused := false }, ph.2)

/-- `lottie_free_resources`, FIRST variant (lines 197–211): sets the stop
flag, force-deletes the task via `vTaskDelete(ctx->task_handle)` if the
handle is set (with no polling wait at all), frees the three buffers, then
resets the stop flag.  The returned `Nat` counts `vTaskDelete` calls on the
worker handle (forced terminations). -/
def lottie_free_resources_v1 (c : LottieContext) (h : Heap) :
    (LottieContext × Heap) × Nat :=
  let c := { c with stop_requested := true }
  let ck : LottieContext × Nat :=
    if c.task_handle then ({ c with task_handle := false }, 1) else (c, 0)
  let sh : LottieContext × Heap :=
    if ck.1.task_stack then ({ ck.1 with task_stack := false }, h.free) else (ck.1, h)
  let th : LottieContext × Heap :=
    if sh.1.task_tcb then ({ sh.1 with task_tcb := false }, sh.2.free) else sh
  let ph : LottieContext × Heap :=
    if th.1.pixel_buffer then ({ th.1 with pixel_buffer := false }, th.2.free) else th
  (({ ph.1 with stop_requested := false }, ph.2), ck.2)

/-- Whether the worker has cleared `ctx->task_handle` by tick `t`:
`clearAt = some k` means the worker clears it at tick `k`; `none` means it
never clears it within any relevant window. -/
def handleCleared (clearAt : Option Nat) (t : Nat) : Bool :=
  match clearAt with
  | none => false
  | some k => decide (k ≤ t)

/-- The polling loop of `lottie_wait_task_stop` (lines 564–567): while the
handle is still set and the tick count is below `deadline`, sleep 10 ms.
Returns the tick at which the loop exits.  `fuel` bounds the iterations;
50 iterations of 10 ms exactly cover the 500 ms window. -/
def waitPoll (clearAt : Option Nat) (deadline : Nat) : Nat → Nat → Nat
  | t, 0 => t
  | t, fuel + 1 =>
    if !handleCleared clearAt t && decide (t < deadline) then
      waitPoll clearAt deadline (t + 10) fuel
    else t

/-- Result of the stop operation: the stop flag, the tick at which the wait
returned, whether the worker handle was still set at that point, and how
many forced terminations (`vTaskDelete` on the worker handle) occurred. -/
structure StopResult where
  stop_requested : Bool
  final_tick : Nat
  handle_present : Bool
  kills : Nat
deriving Repr, DecidableEq

/-- `lottie_wait_task_stop` (lines 559–568), started at tick `t0` against a
worker that clears its handle at `clearAt`: sets `stop_requested`, computes
`timeout = t0 + 500`, runs the 10 ms polling loop, and returns.  The source
contains no `vTaskDelete` call, so `kills` is 0 on every path. -/
def lottie_wait_task_stop (clearAt : Option Nat) (t0 : Nat) : StopResult :=
  let deadline := t0 + 500
  let tf := waitPoll clearAt deadline t0 50
  { stop_requested := true, final_tick := tf
    handle_present := !handleCleared clearAt tf, kills := 0 }

/-- `lottie_launch`, current variant (lines 588–633): allocates the pixel
buffer (returning `false` on failure), hides the widget, allocates the task
stack and TCB (on failure of either, `lottie_free_resources` rolls back and
it returns `false`), clears `stop_requested`/`is_paused`, then spawns the
task and returns `ctx->task_handle != nullptr`.  Note the spawn-failure
path performs no rollback. -/
def lottie_launch (env : LaunchEnv) (c : LottieContext) (h : Heap) :
    LottieContext × Heap × Bool :=
  if !env.buf_ok then
    ({ c with pixel_buffer := false }, h, false)
  else
    let c := { c with pixel_buffer := true }
    let h := h.alloc
    let c := { c with obj_hidden := true }
    let sh : LottieContext × Heap :=
      if env.stack_ok then ({ c with task_stack := true }, h.alloc)
      else ({ c with task_stack := false }, h)
    let th : LottieContext × Heap :=
      if env.tcb_ok then ({ sh.1 with task_tcb := true }, sh.2.alloc)
      else ({ sh.1 with task_tcb := false }, sh.2)
    if !th.1.task_stack || !th.1.task_tcb then
      let fh := lottie_free_resources th.1 th.2
      (fh.1, fh.2, false)
    else
      let c := { th.1 with stop_requested := false, is_paused := false }
      let c := { c with task_handle := env.spawn_ok }
      (c, th.2, c.task_handle)

/-- `lottie_init`, current variant (lines 691–755): builds a zeroed context
from the configuration, records the widget's initial hidden flag, registers
the screen/widget event callbacks (pure registration, no state effect
modelled), and launches only if the widget is not initially hidden.
The context's own control-block allocation is assumed to succeed (its
failure path touches nothing else). -/
def lottie_init (env : LaunchEnv) (widget_hidden : Bool) (loop auto_start : Bool)
    (width height : Nat) (h : Heap) : LottieContext × Heap × Bool :=
  let c := { zeroContext with
    loop := loop, auto_start := auto_start, width := width, height := height
    initial_hidden := widget_hidden, obj_hidden := widget_hidden }
  if !c.initial_hidden then lottie_launch env c h
  else (c, h, true)

/-- Result of `lottie_widget_draw_cb`: the updated context and heap,
whether the guard passed (so `lottie_launch` was invoked), and the launch
result when it was. -/
structure DrawCbResult where
  ctx : LottieContext
  heap : Heap
  launched : Bool
  launch_ok : Bool
deriving Repr, DecidableEq

/-- `lottie_widget_draw_cb` (lines 671–682): fired on
`LV_EVENT_DRAW_MAIN_BEGIN`, which LVGL delivers only while the widget is
visible; if both the pixel buffer and the task handle are null, launches. -/
def lottie_widget_draw_cb (env : LaunchEnv) (c : LottieContext) (h : Heap) :
    DrawCbResult :=
  if !c.pixel_buffer && !c.task_handle then
    let r := lottie_launch env c h
    { ctx := r.1, heap := r.2.1, launched := true, launch_ok := r.2.2 }
  else
    { ctx := c, heap := h, launched := false, launch_ok := false }

/-- `total_frames` local of the render loop (line 466):
`end_frame - start_frame`, non-negative whenever the loop is entered. -/
def total_frames (c : LottieContext) : Nat :=
  (c.end_frame - c.start_frame).toNat

/-- `frame_delay_ms` computation (lines 467–470): `duration_ms /
total_frames`, then raised to at least 16 and lowered to at most 100. -/
def frame_delay_ms (c : LottieContext) : Nat :=
  let d := c.duration_ms / total_frames c
  let d := if d < 16 then 16 else d
  if d > 100 then 100 else d

/-- The frame computed for a given elapsed time (lines 517–531): in loop
mode `start + total_frames * (elapsed % duration) / duration`, otherwise
`start + total_frames * elapsed / duration` (only used while
`elapsed < duration`).  All operands are non-negative, so the C `int64_t`
truncating division is Nat division. -/
def compute_frame (c : LottieContext) (elapsed : Nat) : Int :=
  if c.loop then
    let phase := elapsed % c.duration_ms
    c.start_frame + (total_frames c * phase / c.duration_ms : Nat)
  else
    c.start_frame + (total_frames c * elapsed / c.duration_ms : Nat)

/-- State carried across iterations of the render `while` loop:
the context, heap, the local variables `start_tick` and
`pause_start_tick`, the current tick `now`, and the trace of frame values
passed to `ctx->exec_cb` (oldest first). -/
structure LoopState where
  ctx : LottieContext
  heap : Heap
  start_tick : Nat
  pause_start_tick : Nat
  now : Nat
  applied : List Int
deriving Repr, DecidableEq

/-- One pass through the `while (!ctx->stop_requested)` body
(lines 475–541), given the widget-hidden schedule.  Returns the successor
state and `true` when the loop exited (the `while` guard failed or a
`break` ran).  Faithful transcription: the hidden branch records
`pause_start_tick` on the first paused iteration, self-stops after more
than 2000 ms hidden, else sleeps 100 ms; the visible branch advances
`start_tick` by the pause duration on resume, then computes the frame;
non-loop completion applies `end_frame` (under the `!stop_requested`
guard of line 523) and breaks; otherwise the frame is applied and the task
sleeps `frame_delay_ms`. -/
def loop_iter (hidden : Nat → Bool) (s : LoopState) : LoopState × Bool :=
  if s.ctx.stop_requested then (s, true)
  else if hidden s.now then
    let cp : LottieContext × Nat :=
      if !s.ctx.is_paused then ({ s.ctx with is_paused := true }, s.now)
      else (s.ctx, s.pause_start_tick)
    let hidden_duration := s.now - cp.2
    if hidden_duration > 2000 then
      ({ s with ctx := { cp.1 with stop_requested := true }
                pause_start_tick := cp.2 }, true)
    else
      ({ s with ctx := cp.1, pause_start_tick := cp.2, now := s.now + 100 }, false)
  else
    let cs : LottieContext × Nat :=
      if s.ctx.is_paused then
        ({ s.ctx with is_paused := false },
         s.start_tick + (s.now - s.pause_start_tick))
      else (s.ctx, s.start_tick)
    let elapsed := s.now - cs.2
    if !cs.1.loop && decide (elapsed ≥ cs.1.duration_ms) then
      let tr := if !cs.1.stop_requested then s.applied ++ [cs.1.end_frame]
                else s.applied
      ({ s with ctx := cs.1, start_tick := cs.2, applied := tr }, true)
    else
      let fr := compute_frame cs.1 elapsed
      if cs.1.stop_requested then
        ({ s with ctx := cs.1, start_tick := cs.2 }, true)
      else
        ({ s with ctx := cs.1, start_tick := cs.2
                  applied := s.applied ++ [fr]
                  now := s.now + frame_delay_ms cs.1 }, false)

/-- Iterate `loop_iter` up to `fuel` times; the second component is `true`
when the `while` loop exited within the fuel bound. -/
def run_loop (hidden : Nat → Bool) : Nat → LoopState → LoopState × Bool
  | 0, s => (s, false)
  | fuel + 1, s =>
    let r := loop_iter hidden s
    if r.2 then (r.1, true) else run_loop hidden fuel r.1

/-- How the modelled task run ended. -/
inductive TaskExit where
  /-- Early exit at lines 450–456: no valid animation parameters. -/
  | degenerate
  /-- Early exit at lines 458–462: `auto_start` is false. -/
  | noAutostart
  /-- The render loop exited (stop request, hidden timeout or one-shot
  completion) and the epilogue at lines 544–550 ran. -/
  | loopDone
  /-- The model's fuel ran out with the loop still running. -/
  | fuelOut
deriving Repr, DecidableEq

/-- Final observation of a task run: the context and heap after the task
returned (or at fuel exhaustion), the exit kind, the trace of applied
frames, and — on the exit paths, which all end with
`ctx->task_handle = nullptr` — the context immediately before that final
handle-clearing store (`none` when the fuel ran out mid-loop). -/
structure TaskResult where
  ctx : LottieContext
  heap : Heap
  exit : TaskExit
  applied : List Int
  now : Nat
  ctx_before_handle_clear : Option LottieContext
deriving Repr, DecidableEq

/-- The load/first-parse phase of `lottie_load_task` (lines 400–446): on
first load, the parse outcome `parse` abstracts `lv_lottie_get_anim`
(`some p` = non-null `anim`, whose fields are captured and
`data_loaded := true`); on re-load nothing is captured.  Afterwards the
widget is unhidden unless `initial_hidden` is set. -/
def load_phase (parse : Option AnimParams) (c : LottieContext) : LottieContext :=
  let c :=
    if !c.data_loaded then
      match parse with
      | some p =>
        { c with exec_cb := p.exec_cb, start_frame := p.start_frame
                 end_frame := p.end_frame, duration_ms := p.duration_ms
                 data_loaded := true }
      | none => c
    else c
  if !c.initial_hidden then { c with obj_hidden := false } else c

/-- `lottie_load_task`, current variant (lines 395–551), started such that
the tick count right after the 1000 ms settle delay is `t0`.  Runs the
load phase, the validation gates, then the render loop; on loop exit runs
`lottie_free_resources` followed by `ctx->task_handle = nullptr` (in that
order).  The degenerate/no-autostart early exits clear the handle without
freeing anything. -/
def lottie_load_task (hidden : Nat → Bool) (parse : Option AnimParams)
    (t0 fuel : Nat) (c : LottieContext) (h : Heap) : TaskResult :=
  let c := load_phase parse c
  if !c.data_loaded || !c.exec_cb || c.duration_ms = 0 ||
      c.end_frame ≤ c.start_frame then
    { ctx := { c with task_handle := false }, heap := h, exit := .degenerate
      applied := [], now := t0, ctx_before_handle_clear := some c }
  else if !c.auto_start then
    { ctx := { c with task_handle := false }, heap := h, exit := .noAutostart
      applied := [], now := t0, ctx_before_handle_clear := some c }
  else
    let s0 : LoopState :=
      { ctx := c, heap := h, start_tick := t0, pause_start_tick := 0
        now := t0, applied := [] }
    let r := run_loop hidden fuel s0
    if r.2 then
      let fh := lottie_free_resources r.1.ctx r.1.heap
      { ctx := { fh.1 with task_handle := false }, heap := fh.2
        exit := .loopDone, applied := r.1.applied, now := r.1.now
        ctx_before_handle_clear := some fh.1 }
    else
      { ctx := r.1.ctx, heap := r.1.heap, exit := .fuelOut
        applied := r.1.applied, now := r.1.now
        ctx_before_handle_clear := none }

/-! Helper lemmas. -/

theorem div_offset_lt (tf D t : Nat) (htf : 0 < tf) (hD : 0 < D) (ht : t < D) :
    tf * t / D < tf := by
  rw [Nat.div_lt_iff_lt_mul hD]
  exact mul_lt_mul_of_pos_left ht htf

theorem floor_nat_div (a b : ℕ) : ⌊(a : ℚ) / (b : ℚ)⌋ = (a / b : ℕ) := by
  rw [← Int.natCast_floor_eq_floor (by positivity), Nat.floor_div_eq_div]

theorem frame_delay_ms_bounds (c : LottieContext) :
    16 ≤ frame_delay_ms c ∧ frame_delay_ms c ≤ 100 := by
  unfold frame_delay_ms
  dsimp only
  split <;> split <;> omega

theorem lottie_free_resources_fields (c : LottieContext) (h : Heap) :
    (lottie_free_resources c h).1.pixel_buffer = false ∧
    (lottie_free_resources c h).1.task_stack = false ∧
    (lottie_free_resources c h).1.task_tcb = false ∧
    (lottie_free_resources c h).1.task_handle = c.task_handle ∧
    (lottie_free_resources c h).1.stop_requested = false ∧
    (lottie_free_resources c h).1.is_paused = false := by
  cases hs : c.task_stack <;> cases ht : c.task_tcb <;> cases hp : c.pixel_buffer <;>
    simp [lottie_free_resources, hs, ht, hp]

theorem compute_frame_bounds (c : LottieContext) (t : Nat)
    (hse : c.start_frame < c.end_frame) (hD : 0 < c.duration_ms)
    (hnl : c.loop = false → t < c.duration_ms) :
    c.start_frame ≤ compute_frame c t ∧ compute_frame c t ≤ c.end_frame - 1 := by
  have htf : 0 < total_frames c := by unfold total_frames; omega
  have htfe : (total_frames c : Int) = c.end_frame - c.start_frame := by
    unfold total_frames; omega
  unfold compute_frame
  dsimp only
  rcases Bool.eq_false_or_eq_true c.loop with hL | hL
  · rw [if_pos hL]
    have hk := div_offset_lt (total_frames c) c.duration_ms (t % c.duration_ms)
      htf hD (Nat.mod_lt _ hD)
    generalize total_frames c * (t % c.duration_ms) / c.duration_ms = k at hk ⊢
    omega
  · rw [if_neg (by simp [hL])]
    have hk := div_offset_lt (total_frames c) c.duration_ms t htf hD (hnl hL)
    generalize total_frames c * t / c.duration_ms = k at hk ⊢
    omega

theorem loop_iter_ctx_shape (hidden : Nat → Bool) (s : LoopState) :
    ∃ p q, (loop_iter hidden s).1.ctx =
        { s.ctx with is_paused := p, stop_requested := q } ∧
      (loop_iter hidden s).1.heap = s.heap := by
  simp only [loop_iter]
  repeat' split
  all_goals first
    | exact ⟨s.ctx.is_paused, s.ctx.stop_requested, rfl, rfl⟩
    | exact ⟨true, true, rfl, rfl⟩
    | exact ⟨true, s.ctx.stop_requested, rfl, rfl⟩
    | exact ⟨false, s.ctx.stop_requested, rfl, rfl⟩
    | exact ⟨false, true, rfl, rfl⟩
    | exact ⟨s.ctx.is_paused, true, rfl, rfl⟩

theorem run_loop_ctx_shape (hidden : Nat → Bool) (fuel : Nat) (s : LoopState) :
    ∃ p q, (run_loop hidden fuel s).1.ctx =
        { s.ctx with is_paused := p, stop_requested := q } ∧
      (run_loop hidden fuel s).1.heap = s.heap := by
  induction fuel generalizing s with
  | zero => exact ⟨s.ctx.is_paused, s.ctx.stop_requested, rfl, rfl⟩
  | succ n ih =>
    obtain ⟨p, q, hc, hh⟩ := loop_iter_ctx_shape hidden s
    by_cases hx : (loop_iter hidden s).2
    · refine ⟨p, q, ?_, ?_⟩ <;> simp [run_loop, hx, hc, hh]
    · obtain ⟨p', q', hc', hh'⟩ := ih (loop_iter hidden s).1
      refine ⟨p', q', ?_, ?_⟩ <;> simp [run_loop, hx, hc', hh', hc, hh]

theorem waitPoll_spec (clearAt : Option Nat) (dl : Nat) :
    ∀ fuel t, t + 10 * fuel = dl →
      t ≤ waitPoll clearAt dl t fuel ∧ waitPoll clearAt dl t fuel ≤ dl ∧
      (handleCleared clearAt (waitPoll clearAt dl t fuel) = false →
        waitPoll clearAt dl t fuel = dl) := by
  intro fuel
  induction fuel with
  | zero => intro t ht; simp [waitPoll]; omega
  | succ n ih =>
    intro t ht
    unfold waitPoll
    by_cases hcl : handleCleared clearAt t
    · rw [if_neg (by simp [hcl])]
      exact ⟨le_refl t, by omega, fun hc => absurd hcl (by simp [hc])⟩
    · by_cases hlt : t < dl
      · rw [if_pos (by simp [hcl, hlt])]
        have hr := ih (t + 10) (by omega)
        exact ⟨le_trans (by omega) hr.1, hr.2.1, hr.2.2⟩
      · rw [if_neg (by simp [hcl, hlt])]
        exact ⟨le_refl t, by omega, fun _ => by omega⟩

theorem run_loop_hidden_exits :
    ∀ (fuel : Nat) (s : LoopState) (d : Nat),
      s.ctx.stop_requested = false → s.ctx.is_paused = true →
      s.now = s.pause_start_tick + d → 1 ≤ fuel → 2000 < d + 100 * (fuel - 1) →
      (run_loop (fun _ => true) fuel s).2 = true ∧
      (run_loop (fun _ => true) fuel s).1.ctx =
        { s.ctx with stop_requested := true } ∧
      (run_loop (fun _ => true) fuel s).1.applied = s.applied ∧
      (run_loop (fun _ => true) fuel s).1.heap = s.heap ∧
      (run_loop (fun _ => true) fuel s).1.start_tick = s.start_tick := by
  intro fuel
  induction fuel with
  | zero => intro s d _ _ _ hf _; exact absurd hf (by omega)
  | succ n ih =>
    intro s d hstop hpause hnow _ hd
    by_cases hgt : d > 2000
    · have hiter : loop_iter (fun _ => true) s =
          ({ s with ctx := { s.ctx with stop_requested := true } }, true) := by
        unfold loop_iter
        rw [if_neg (show ¬(s.ctx.stop_requested = true) by simp [hstop])]
        dsimp only
        rw [if_pos (show (true : Bool) = true from rfl)]
        rw [if_neg (show ¬((!s.ctx.is_paused) = true) by simp [hpause])]
        dsimp only
        rw [if_pos (by omega)]
      simp [run_loop, hiter]
    · have hiter : loop_iter (fun _ => true) s =
          ({ s with now := s.now + 100 }, false) := by
        unfold loop_iter
        rw [if_neg (show ¬(s.ctx.stop_requested = true) by simp [hstop])]
        dsimp only
        rw [if_pos (show (true : Bool) = true from rfl)]
        rw [if_neg (show ¬((!s.ctx.is_paused) = true) by simp [hpause])]
        dsimp only
        rw [if_neg (by omega)]
      have hrl : run_loop (fun _ => true) (n + 1) s =
          run_loop (fun _ => true) n { s with now := s.now + 100 } := by
        simp [run_loop, hiter]
      have hr := ih { s with now := s.now + 100 } (d + 100) hstop hpause
        (by show s.now + 100 = s.pause_start_tick + (d + 100); omega)
        (by omega) (by omega)
      rw [hrl]
      exact ⟨hr.1, hr.2.1, hr.2.2.1, hr.2.2.2.1, hr.2.2.2.2⟩

theorem compute_frame_is_paused_irrel (c : LottieContext) (p : Bool) (t : Nat) :
    compute_frame { c with is_paused := p } t = compute_frame c t := rfl

theorem loop_iter_visible_complete (hidden : Nat → Bool) (s : LoopState)
    (hstop : s.ctx.stop_requested = false) (hpause : s.ctx.is_paused = false)
    (hhid : hidden s.now = false) (hloop : s.ctx.loop = false)
    (hge : s.ctx.duration_ms ≤ s.now - s.start_tick) :
    loop_iter hidden s =
      ({ s with applied := s.applied ++ [s.ctx.end_frame] }, true) := by
  unfold loop_iter
  rw [if_neg (show ¬(s.ctx.stop_requested = true) by simp [hstop])]
  dsimp only
  rw [if_neg (show ¬(hidden s.now = true) by simp [hhid])]
  rw [if_neg (show ¬(s.ctx.is_paused = true) by simp [hpause])]
  dsimp only
  rw [if_pos (by simp [hloop, hge])]
  rw [if_pos (by simp [hstop])]

theorem loop_iter_visible_frame (hidden : Nat → Bool) (s : LoopState)
    (hstop : s.ctx.stop_requested = false) (hpause : s.ctx.is_paused = false)
    (hhid : hidden s.now = false)
    (hcont : s.ctx.loop = true ∨ s.now - s.start_tick < s.ctx.duration_ms) :
    loop_iter hidden s =
      ({ s with applied := s.applied ++ [compute_frame s.ctx (s.now - s.start_tick)]
                now := s.now + frame_delay_ms s.ctx }, false) := by
  unfold loop_iter
  rw [if_neg (show ¬(s.ctx.stop_requested = true) by simp [hstop])]
  dsimp only
  rw [if_neg (show ¬(hidden s.now = true) by simp [hhid])]
  rw [if_neg (show ¬(s.ctx.is_paused = true) by simp [hpause])]
  dsimp only
  rw [if_neg (show ¬((!s.ctx.loop &&
        decide (s.now - s.start_tick ≥ s.ctx.duration_ms)) = true) by
    rcases hcont with h | h <;> simp [h])]
  rw [if_neg (show ¬(s.ctx.stop_requested = true) by simp [hstop])]

theorem loop_iter_resume (hidden : Nat → Bool) (s : LoopState)
    (hstop : s.ctx.stop_requested = false) (hpause : s.ctx.is_paused = true)
    (hhid : hidden s.now = false) (hloop : s.ctx.loop = true) :
    loop_iter hidden s =
      ({ s with ctx := { s.ctx with is_paused := false }
                start_tick := s.start_tick + (s.now - s.pause_start_tick)
                applied := s.applied ++
                  [compute_frame s.ctx
                    (s.now - (s.start_tick + (s.now - s.pause_start_tick)))]
                now := s.now + frame_delay_ms s.ctx }, false) := by
  unfold loop_iter
  rw [if_neg (show ¬(s.ctx.stop_requested = true) by simp [hstop])]
  dsimp only
  rw [if_neg (show ¬(hidden s.now = true) by simp [hhid])]
  rw [if_pos (show s.ctx.is_paused = true from hpause)]
  dsimp only
  rw [if_neg (by simp [hloop])]
  rw [if_neg (by simp [hstop])]
  rfl

theorem run_loop_visible_oneshot :
    ∀ (fuel : Nat) (s : LoopState),
      s.ctx.loop = false → s.ctx.stop_requested = false →
      s.ctx.is_paused = false → 0 < s.ctx.duration_ms →
      s.ctx.start_frame < s.ctx.end_frame → s.start_tick ≤ s.now →
      s.ctx.duration_ms ≤ (s.now - s.start_tick) +
        frame_delay_ms s.ctx * (fuel - 1) →
      1 ≤ fuel →
      (run_loop (fun _ => false) fuel s).2 = true ∧
      ∃ mid, (run_loop (fun _ => false) fuel s).1.applied =
          s.applied ++ (mid ++ [s.ctx.end_frame]) ∧
        ∀ x ∈ mid, s.ctx.start_frame ≤ x ∧ x ≤ s.ctx.end_frame - 1 := by
  intro fuel
  induction fuel with
  | zero => intro s _ _ _ _ _ _ _ hf; exact absurd hf (by omega)
  | succ n ih =>
    intro s hloop hstop hpause hD hse hst hlen _
    by_cases hge : s.ctx.duration_ms ≤ s.now - s.start_tick
    · have hiter := loop_iter_visible_complete (fun _ => false) s hstop hpause
        rfl hloop hge
      refine ⟨by simp [run_loop, hiter], [], ?_, by simp⟩
      simp [run_loop, hiter]
    · have hlt : s.now - s.start_tick < s.ctx.duration_ms := by omega
      have hiter := loop_iter_visible_frame (fun _ => false) s hstop hpause
        rfl (Or.inr hlt)
      have hd16 := frame_delay_ms_bounds s.ctx
      have hn1 : 1 ≤ n := by
        rcases Nat.eq_zero_or_pos n with h0 | h1
        · subst h0; simp at hlen; omega
        · exact h1
      have hrl : run_loop (fun _ => false) (n + 1) s =
          run_loop (fun _ => false) n
            { s with
                applied := s.applied ++ [compute_frame s.ctx (s.now - s.start_tick)],
                now := s.now + frame_delay_ms s.ctx } := by
        simp [run_loop, hiter]
      have hr := ih
        { s with
            applied := s.applied ++ [compute_frame s.ctx (s.now - s.start_tick)],
            now := s.now + frame_delay_ms s.ctx }
        hloop hstop hpause hD hse (by dsimp only; omega)
        (by
          show s.ctx.duration_ms ≤
            (s.now + frame_delay_ms s.ctx - s.start_tick) +
              frame_delay_ms s.ctx * (n - 1)
          simp only [Nat.add_sub_cancel] at hlen
          have hmul : frame_delay_ms s.ctx * n =
              frame_delay_ms s.ctx + frame_delay_ms s.ctx * (n - 1) := by
            cases n with
            | zero => exact absurd hn1 (by omega)
            | succ m =>
              rw [Nat.add_sub_cancel, Nat.mul_succ]
              exact Nat.add_comm _ _
          omega)
        hn1
      obtain ⟨hex, mid, happ, hbnd⟩ := hr
      refine ⟨by rw [hrl]; exact hex,
        compute_frame s.ctx (s.now - s.start_tick) :: mid, ?_, ?_⟩
      · rw [hrl, happ]; simp
      · intro x hx
        rcases List.mem_cons.mp hx with hx | hx
        · subst hx
          exact compute_frame_bounds s.ctx (s.now - s.start_tick) hse hD
            (fun _ => hlt)
        · exact hbnd x hx

theorem loop_iter_applied_shape (hidden : Nat → Bool) (s : LoopState)
    (hse : s.ctx.start_frame < s.ctx.end_frame) (hD : 0 < s.ctx.duration_ms) :
    (loop_iter hidden s).1.applied = s.applied ∨
    ∃ x, (loop_iter hidden s).1.applied = s.applied ++ [x] ∧
      s.ctx.start_frame ≤ x ∧ x ≤ s.ctx.end_frame := by
  unfold loop_iter
  by_cases h1 : s.ctx.stop_requested = true
  · rw [if_pos h1]; exact Or.inl rfl
  rw [if_neg h1]
  dsimp only
  by_cases h2 : hidden s.now = true
  · rw [if_pos h2]
    by_cases h3 : (!s.ctx.is_paused) = true
    · rw [if_pos h3]; dsimp only; split <;> exact Or.inl rfl
    · rw [if_neg h3]; dsimp only; split <;> exact Or.inl rfl
  rw [if_neg h2]
  by_cases h3 : s.ctx.is_paused = true
  · rw [if_pos h3]
    dsimp only
    by_cases h4 : ((!({ s.ctx with is_paused := false } : LottieContext).loop) &&
        decide (s.now - (s.start_tick + (s.now - s.pause_start_tick)) ≥
          ({ s.ctx with is_paused := false } : LottieContext).duration_ms)) = true
    · rw [if_pos h4]
      dsimp only
      by_cases h5 :
          ((!({ s.ctx with is_paused := false } : LottieContext).stop_requested)
            = true)
      · rw [if_pos h5]
        exact Or.inr ⟨s.ctx.end_frame, rfl, le_of_lt hse, le_refl _⟩
      · rw [if_neg h5]; exact Or.inl rfl
    · rw [if_neg h4]
      by_cases h5 :
          (({ s.ctx with is_paused := false } : LottieContext).stop_requested
            = true)
      · rw [if_pos h5]; exact Or.inl rfl
      · rw [if_neg h5]
        refine Or.inr ⟨compute_frame s.ctx
          (s.now - (s.start_tick + (s.now - s.pause_start_tick))), rfl, ?_⟩
        have hb := compute_frame_bounds s.ctx
          (s.now - (s.start_tick + (s.now - s.pause_start_tick)))
          hse hD (fun hl => by simp [hl] at h4; omega)
        exact ⟨hb.1, le_trans hb.2 (by omega)⟩
  · rw [if_neg h3]
    dsimp only
    by_cases h4 : ((!s.ctx.loop) &&
        decide (s.now - s.start_tick ≥ s.ctx.duration_ms)) = true
    · rw [if_pos h4]
      dsimp only
      by_cases h5 : ((!s.ctx.stop_requested) = true)
      · rw [if_pos h5]
        exact Or.inr ⟨s.ctx.end_frame, rfl, le_of_lt hse, le_refl _⟩
      · rw [if_neg h5]; exact Or.inl rfl
    · rw [if_neg h4]
      by_cases h5 : (s.ctx.stop_requested = true)
      · rw [if_pos h5]; exact Or.inl rfl
      · rw [if_neg h5]
        refine Or.inr ⟨_, rfl, ?_⟩
        have hb := compute_frame_bounds s.ctx (s.now - s.start_tick)
          hse hD (fun hl => by simp [hl] at h4; omega)
        exact ⟨hb.1, le_trans hb.2 (by omega)⟩

theorem run_loop_applied_bounds (hidden : Nat → Bool) :
    ∀ (fuel : Nat) (s : LoopState),
      s.ctx.start_frame < s.ctx.end_frame → 0 < s.ctx.duration_ms →
      (∀ x ∈ s.applied, s.ctx.start_frame ≤ x ∧ x ≤ s.ctx.end_frame) →
      ∀ x ∈ (run_loop hidden fuel s).1.applied,
        s.ctx.start_frame ≤ x ∧ x ≤ s.ctx.end_frame := by
  intro fuel
  induction fuel with
  | zero => intro s _ _ hap; exact hap
  | succ n ih =>
    intro s hse hD hap
    obtain ⟨p, q, hc, _⟩ := loop_iter_ctx_shape hidden s
    have hap' : ∀ x ∈ (loop_iter hidden s).1.applied,
        s.ctx.start_frame ≤ x ∧ x ≤ s.ctx.end_frame := by
      rcases loop_iter_applied_shape hidden s hse hD with hsh | ⟨y, hsh, hy⟩
      · rw [hsh]; exact hap
      · rw [hsh]
        intro x hx
        rcases List.mem_append.mp hx with hx | hx
        · exact hap x hx
        · rcases List.mem_singleton.mp hx with rfl
          exact hy
    by_cases hx : (loop_iter hidden s).2
    · simpa [run_loop, hx] using hap'
    · have heq : run_loop hidden (n + 1) s = run_loop hidden n (loop_iter hidden s).1 := by
        simp [run_loop, hx]
      rw [heq]
      have := ih (loop_iter hidden s).1 (by rw [hc]; exact hse) (by rw [hc]; exact hD)
        (by rw [hc]; exact hap')
      rw [hc] at this
      exact this

/-! Additional small consequences of `lottie_free_resources`, used when
unfolding the task epilogue. -/

theorem free_resources_pixel_buffer (c : LottieContext) (h : Heap) :
    (lottie_free_resources c h).1.pixel_buffer = false :=
  (lottie_free_resources_fields c h).1

theorem free_resources_task_stack (c : LottieContext) (h : Heap) :
    (lottie_free_resources c h).1.task_stack = false :=
  (lottie_free_resources_fields c h).2.1

theorem free_resources_task_tcb (c : LottieContext) (h : Heap) :
    (lottie_free_resources c h).1.task_tcb = false :=
  (lottie_free_resources_fields c h).2.2.1

theorem free_resources_task_handle (c : LottieContext) (h : Heap) :
    (lottie_free_resources c h).1.task_handle = c.task_handle :=
  (lottie_free_resources_fields c h).2.2.2.1

theorem free_resources_stop (c : LottieContext) (h : Heap) :
    (lottie_free_resources c h).1.stop_requested = false :=
  (lottie_free_resources_fields c h).2.2.2.2.1

theorem free_resources_paused (c : LottieContext) (h : Heap) :
    (lottie_free_resources c h).1.is_paused = false :=
  (lottie_free_resources_fields c h).2.2.2.2.2

theorem free_resources_heap_all (c : LottieContext) (h : Heap)
    (hs : c.task_stack = true) (ht : c.task_tcb = true)
    (hp : c.pixel_buffer = true) :
    (lottie_free_resources c h).2.frees = h.frees + 3 ∧
    (lottie_free_resources c h).2.allocs = h.allocs := by
  simp [lottie_free_resources, hs, ht, hp, Heap.free]

/-! Claim theorems. -/

/-- C1, counterexample: a worker that never clears its handle.  The stop
operation `lottie_wait_task_stop` sets the flag and polls the full 500 ms
timeout (`final_tick = 0 + 500`), at which point the handle is still
present, yet no forced termination happens (`kills = 0`) — refuting the
claim that a worker that has not cleared its handle within the timeout is
forcibly terminated. -/
theorem C1_counterexample :
    (lottie_wait_task_stop none 0).handle_present = true ∧
    (lottie_wait_task_stop none 0).final_tick = 0 + 500 ∧
    (lottie_wait_task_stop none 0).kills = 0 := by decide

/-- C1, amended: for every RenderContext on which a stop is requested, the
stop operation sets the stop-requested flag and polls for the
worker-handle field to clear for up to 500 ms (returning no later than
`t0 + 500`, and only at `t0 + 500` if the handle is still present); if the
worker has not cleared its handle within the timeout, no forced
termination occurs — the wait simply returns.  (Only the first variant's
`lottie_free_resources` force-deletes the worker, and it does so
unconditionally, without any polling wait.) -/
theorem C1_stop_polls_without_forced_termination (clearAt : Option Nat) (t0 : Nat) :
    (lottie_wait_task_stop clearAt t0).stop_requested = true ∧
    (lottie_wait_task_stop clearAt t0).kills = 0 ∧
    t0 ≤ (lottie_wait_task_stop clearAt t0).final_tick ∧
    (lottie_wait_task_stop clearAt t0).final_tick ≤ t0 + 500 ∧
    ((lottie_wait_task_stop clearAt t0).handle_present = true →
      (lottie_wait_task_stop clearAt t0).final_tick = t0 + 500) ∧
    (∀ (c : LottieContext) (h : Heap), c.task_handle = true →
      (lottie_free_resources_v1 c h).2 = 1) := by
  have hw := waitPoll_spec clearAt (t0 + 500) 50 t0 (by omega)
  refine ⟨rfl, rfl, hw.1, hw.2.1, ?_, ?_⟩
  · intro hp
    apply hw.2.2
    have hp' : (!handleCleared clearAt (waitPoll clearAt (t0 + 500) t0 50))
        = true := hp
    simpa using hp'
  · intro c h hth
    cases hs : c.task_stack <;> cases ht2 : c.task_tcb <;>
      cases hp : c.pixel_buffer <;>
      simp [lottie_free_resources_v1, hth, hs, ht2, hp]

/-- C1 witness: a worker that never clears its handle makes the wait run
the full 500 ms from tick 3, and the first-variant free force-deletes a
context whose handle is set. -/
theorem C1_witness :
    (lottie_wait_task_stop none 3).final_tick = 3 + 500 ∧
    (lottie_free_resources_v1 { zeroContext with task_handle := true }
      ⟨0, 0⟩).2 = 1 := by
  constructor
  · exact (C1_stop_polls_without_forced_termination none 3).2.2.2.2.1 (by decide)
  · exact (C1_stop_polls_without_forced_termination none 3).2.2.2.2.2 _ _ (by decide)

/-- C2: `lottie_launch` failing at the spawn step (all three allocations
succeed, `xTaskCreateStatic` returns null) returns failure but releases
nothing: the pixel buffer, task stack and TCB all stay allocated and the
pool is left with 3 live allocations instead of the net zero the claim
(and the spec's rollback requirement) demands. -/
theorem C2_spawn_failure_leaks :
    (lottie_launch ⟨true, true, true, false⟩ zeroContext ⟨0, 0⟩).2.2 = false ∧
    (lottie_launch ⟨true, true, true, false⟩ zeroContext ⟨0, 0⟩).1.pixel_buffer = true ∧
    (lottie_launch ⟨true, true, true, false⟩ zeroContext ⟨0, 0⟩).1.task_stack = true ∧
    (lottie_launch ⟨true, true, true, false⟩ zeroContext ⟨0, 0⟩).1.task_tcb = true ∧
    (lottie_launch ⟨true, true, true, false⟩ zeroContext ⟨0, 0⟩).2.1.allocs = 3 ∧
    (lottie_launch ⟨true, true, true, false⟩ zeroContext ⟨0, 0⟩).2.1.frees = 0 := by
  decide

/-- C7: calling `lottie_free_resources` twice in a row yields the same
final state as calling it once — the second call is a no-op (its result,
including the heap, equals the first call's result, so it performs no
frees), and after the first call all three resource pointers are already
null. -/
theorem C7_free_resources_idempotent (c : LottieContext) (h : Heap) :
    lottie_free_resources (lottie_free_resources c h).1
        (lottie_free_resources c h).2 = lottie_free_resources c h ∧
    (lottie_free_resources c h).1.pixel_buffer = false ∧
    (lottie_free_resources c h).1.task_stack = false ∧
    (lottie_free_resources c h).1.task_tcb = false := by
  cases hs : c.task_stack <;> cases ht : c.task_tcb <;>
    cases hp : c.pixel_buffer <;>
    simp [lottie_free_resources, hs, ht, hp]

/-- C9: for a captured animation with `end_frame > start_frame`, the
per-frame delay is `duration_ms / (end - start)` clamped to
`[16 ms, 100 ms]`: it always lies in that interval and equals the raw
quotient whenever the quotient already lies in the interval. -/
theorem C9_frame_delay_clamped (c : LottieContext)
    (hse : c.start_frame < c.end_frame) :
    frame_delay_ms c =
      min 100 (max 16 (c.duration_ms / total_frames c)) ∧
    16 ≤ frame_delay_ms c ∧ frame_delay_ms c ≤ 100 ∧
    (16 ≤ c.duration_ms / total_frames c →
      c.duration_ms / total_frames c ≤ 100 →
      frame_delay_ms c = c.duration_ms / total_frames c) := by
  have hb := frame_delay_ms_bounds c
  refine ⟨?_, hb.1, hb.2, ?_⟩
  · unfold frame_delay_ms
    dsimp only
    split <;> split <;> omega
  · intro h1 h2
    unfold frame_delay_ms
    dsimp only
    split <;> split <;> omega

/-- C9 witness at a concrete context: 10 frames over 1000 ms give a
100 ms delay, which is the unclamped quotient. -/
theorem C9_witness :
    frame_delay_ms { zeroContext with
      start_frame := 0, end_frame := 10, duration_ms := 1000 } =
      min 100 (max 16 (1000 / 10)) :=
  (C9_frame_delay_clamped { zeroContext with
    start_frame := 0, end_frame := 10, duration_ms := 1000 } (by decide)).1

theorem load_phase_fields (parse : Option AnimParams) (c : LottieContext) :
    (load_phase parse c).pixel_buffer = c.pixel_buffer ∧
    (load_phase parse c).task_stack = c.task_stack ∧
    (load_phase parse c).task_tcb = c.task_tcb ∧
    (load_phase parse c).task_handle = c.task_handle ∧
    (load_phase parse c).stop_requested = c.stop_requested ∧
    (load_phase parse c).is_paused = c.is_paused ∧
    (load_phase parse c).auto_start = c.auto_start ∧
    (load_phase parse c).loop = c.loop := by
  unfold load_phase
  rcases parse with _ | p <;> cases hd : c.data_loaded <;>
    cases hh : c.initial_hidden <;> simp [hd, hh]

theorem load_phase_loaded_fields (parse : Option AnimParams) (c : LottieContext)
    (hd : c.data_loaded = true) :
    (load_phase parse c).data_loaded = true ∧
    (load_phase parse c).exec_cb = c.exec_cb ∧
    (load_phase parse c).duration_ms = c.duration_ms ∧
    (load_phase parse c).start_frame = c.start_frame ∧
    (load_phase parse c).end_frame = c.end_frame := by
  unfold load_phase
  cases hh : c.initial_hidden <;> simp [hd, hh]

/-- C3, counterexample: a context holding a full buffer/worker pair whose
animation has `auto_start = false`.  The worker exits through the
no-autostart gate (lines 458–462), clearing its handle but freeing
nothing: the terminal state — no teardown in progress, zero frees
performed — has the pixel buffer still allocated while the worker handle
is null, and nothing will ever free it without an external unload event.
This refutes `buffer_present == worker_present` outside a bounded
teardown window.  (The degenerate-animation gate at lines 450–456 behaves
the same way.) -/
theorem C3_counterexample :
    (lottie_load_task (fun _ => false) none 0 5
        { zeroContext with
          auto_start := false, exec_cb := true, data_loaded := true
          start_frame := 0, end_frame := 10, duration_ms := 1000
          pixel_buffer := true, task_stack := true, task_tcb := true
          task_handle := true } ⟨3, 0⟩).exit = TaskExit.noAutostart ∧
    (lottie_load_task (fun _ => false) none 0 5
        { zeroContext with
          auto_start := false, exec_cb := true, data_loaded := true
          start_frame := 0, end_frame := 10, duration_ms := 1000
          pixel_buffer := true, task_stack := true, task_tcb := true
          task_handle := true } ⟨3, 0⟩).ctx.pixel_buffer = true ∧
    (lottie_load_task (fun _ => false) none 0 5
        { zeroContext with
          auto_start := false, exec_cb := true, data_loaded := true
          start_frame := 0, end_frame := 10, duration_ms := 1000
          pixel_buffer := true, task_stack := true, task_tcb := true
          task_handle := true } ⟨3, 0⟩).ctx.task_handle = false ∧
    (lottie_load_task (fun _ => false) none 0 5
        { zeroContext with
          auto_start := false, exec_cb := true, data_loaded := true
          start_frame := 0, end_frame := 10, duration_ms := 1000
          pixel_buffer := true, task_stack := true, task_tcb := true
          task_handle := true } ⟨3, 0⟩).heap.frees = 0 := by decide

/-- C3, amended: starting from a successfully launched pair (buffer,
stack, TCB and worker handle all present), every task outcome other than
the degenerate-animation and no-autostart early exits keeps
`buffer_present == worker_present` (and likewise for the stack and TCB):
while the loop runs all are present, and after any loop exit the epilogue
frees the buffers and clears the handle together.  In the two excepted
terminal states the buffer remains allocated with the worker handle null
until an external unload call frees it. -/
theorem C3_buffer_worker_coupled (hidden : Nat → Bool) (parse : Option AnimParams)
    (t0 fuel : Nat) (c : LottieContext) (h : Heap)
    (hpb : c.pixel_buffer = true) (hts : c.task_stack = true)
    (htc : c.task_tcb = true) (hth : c.task_handle = true) :
    (lottie_load_task hidden parse t0 fuel c h).exit = TaskExit.degenerate ∨
    (lottie_load_task hidden parse t0 fuel c h).exit = TaskExit.noAutostart ∨
    ((lottie_load_task hidden parse t0 fuel c h).ctx.pixel_buffer =
        (lottie_load_task hidden parse t0 fuel c h).ctx.task_handle ∧
      (lottie_load_task hidden parse t0 fuel c h).ctx.task_stack =
        (lottie_load_task hidden parse t0 fuel c h).ctx.task_handle ∧
      (lottie_load_task hidden parse t0 fuel c h).ctx.task_tcb =
        (lottie_load_task hidden parse t0 fuel c h).ctx.task_handle) := by
  have hlf := load_phase_fields parse c
  unfold lottie_load_task
  dsimp only
  split
  · exact Or.inl rfl
  · split
    · exact Or.inr (Or.inl rfl)
    · right; right
      split
      · refine ⟨?_, ?_, ?_⟩ <;>
          simp [free_resources_pixel_buffer, free_resources_task_stack,
            free_resources_task_tcb]
      · obtain ⟨p, q, hsh, _⟩ := run_loop_ctx_shape hidden fuel
          { ctx := load_phase parse c, heap := h, start_tick := t0
            pause_start_tick := 0, now := t0, applied := [] }
        refine ⟨?_, ?_, ?_⟩ <;>
          simp [hsh, hlf.1, hlf.2.1, hlf.2.2.1, hlf.2.2.2.1, hpb, hts, htc, hth]

/-- C3 witness at a concrete run: a valid looping animation that stays
visible; the fuel runs out mid-loop and buffer and worker are both still
present (the third disjunct holds with both sides `true`). -/
theorem C3_witness :
    (lottie_load_task (fun _ => false) none 0 3
        { zeroContext with
          auto_start := true, exec_cb := true, data_loaded := true, loop := true
          start_frame := 0, end_frame := 10, duration_ms := 1000
          pixel_buffer := true, task_stack := true, task_tcb := true
          task_handle := true } ⟨3, 0⟩).exit = TaskExit.degenerate ∨
    (lottie_load_task (fun _ => false) none 0 3
        { zeroContext with
          auto_start := true, exec_cb := true, data_loaded := true, loop := true
          start_frame := 0, end_frame := 10, duration_ms := 1000
          pixel_buffer := true, task_stack := true, task_tcb := true
          task_handle := true } ⟨3, 0⟩).exit = TaskExit.noAutostart ∨
    ((lottie_load_task (fun _ => false) none 0 3
        { zeroContext with
          auto_start := true, exec_cb := true, data_loaded := true, loop := true
          start_frame := 0, end_frame := 10, duration_ms := 1000
          pixel_buffer := true, task_stack := true, task_tcb := true
          task_handle := true } ⟨3, 0⟩).ctx.pixel_buffer =
      (lottie_load_task (fun _ => false) none 0 3
        { zeroContext with
          auto_start := true, exec_cb := true, data_loaded := true, loop := true
          start_frame := 0, end_frame := 10, duration_ms := 1000
          pixel_buffer := true, task_stack := true, task_tcb := true
          task_handle := true } ⟨3, 0⟩).ctx.task_handle ∧
    (lottie_load_task (fun _ => false) none 0 3
        { zeroContext with
          auto_start := true, exec_cb := true, data_loaded := true, loop := true
          start_frame := 0, end_frame := 10, duration_ms := 1000
          pixel_buffer := true, task_stack := true, task_tcb := true
          task_handle := true } ⟨3, 0⟩).ctx.task_stack =
      (lottie_load_task (fun _ => false) none 0 3
        { zeroContext with
          auto_start := true, exec_cb := true, data_loaded := true, loop := true
          start_frame := 0, end_frame := 10, duration_ms := 1000
          pixel_buffer := true, task_stack := true, task_tcb := true
          task_handle := true } ⟨3, 0⟩).ctx.task_handle ∧
    (lottie_load_task (fun _ => false) none 0 3
        { zeroContext with
          auto_start := true, exec_cb := true, data_loaded := true, loop := true
          start_frame := 0, end_frame := 10, duration_ms := 1000
          pixel_buffer := true, task_stack := true, task_tcb := true
          task_handle := true } ⟨3, 0⟩).ctx.task_tcb =
      (lottie_load_task (fun _ => false) none 0 3
        { zeroContext with
          auto_start := true, exec_cb := true, data_loaded := true, loop := true
          start_frame := 0, end_frame := 10, duration_ms := 1000
          pixel_buffer := true, task_stack := true, task_tcb := true
          task_handle := true } ⟨3, 0⟩).ctx.task_handle) :=
  C3_buffer_worker_coupled (fun _ => false) none 0 3
    { zeroContext with
      auto_start := true, exec_cb := true, data_loaded := true, loop := true
      start_frame := 0, end_frame := 10, duration_ms := 1000
      pixel_buffer := true, task_stack := true, task_tcb := true
      task_handle := true } ⟨3, 0⟩ rfl rfl rfl rfl

/-- C6: at the iteration where the widget is visible again after a pause
(`is_paused` set, pause begun at `pause_start_tick`), the playback start
reference is advanced by exactly the elapsed invisible duration
(`now - pause_start_tick`), so the elapsed-time value used in that very
iteration — and hence the computed frame — equals the value at the moment
the pause began (`pause_start_tick - start_tick`): the animation resumes
at `frame(t_pause)` and does not jump forward by the pause duration. -/
theorem C6_pause_resume_no_jump (hidden : Nat → Bool) (s : LoopState)
    (hstop : s.ctx.stop_requested = false) (hpause : s.ctx.is_paused = true)
    (hhid : hidden s.now = false) (hloop : s.ctx.loop = true)
    (hst : s.start_tick ≤ s.pause_start_tick)
    (hpn : s.pause_start_tick ≤ s.now) :
    (loop_iter hidden s).1.start_tick =
      s.start_tick + (s.now - s.pause_start_tick) ∧
    s.now - (loop_iter hidden s).1.start_tick =
      s.pause_start_tick - s.start_tick ∧
    (loop_iter hidden s).1.applied =
      s.applied ++ [compute_frame s.ctx (s.pause_start_tick - s.start_tick)] ∧
    (loop_iter hidden s).1.ctx.is_paused = false ∧
    (loop_iter hidden s).2 = false := by
  have hiter := loop_iter_resume hidden s hstop hpause hhid hloop
  have helapsed : s.now - (s.start_tick + (s.now - s.pause_start_tick)) =
      s.pause_start_tick - s.start_tick := by omega
  rw [hiter]
  refine ⟨rfl, by dsimp only; omega, ?_, rfl, rfl⟩
  dsimp only
  rw [helapsed]

/-- C6 witness: pause began at tick 300 with start reference 0 (elapsed
300); at tick 800 the widget is visible again, the start reference
advances by the 500 invisible ticks, and the frame applied is the frame
for elapsed 300. -/
theorem C6_witness :
    (loop_iter (fun _ => false)
        { ctx := { zeroContext with
            loop := true, exec_cb := true, data_loaded := true
            start_frame := 0, end_frame := 10, duration_ms := 1000
            is_paused := true }
          heap := ⟨0, 0⟩, start_tick := 0, pause_start_tick := 300
          now := 800, applied := [] }).1.start_tick = 0 + (800 - 300) ∧
    800 - (loop_iter (fun _ => false)
        { ctx := { zeroContext with
            loop := true, exec_cb := true, data_loaded := true
            start_frame := 0, end_frame := 10, duration_ms := 1000
            is_paused := true }
          heap := ⟨0, 0⟩, start_tick := 0, pause_start_tick := 300
          now := 800, applied := [] }).1.start_tick = 300 - 0 ∧
    (loop_iter (fun _ => false)
        { ctx := { zeroContext with
            loop := true, exec_cb := true, data_loaded := true
            start_frame := 0, end_frame := 10, duration_ms := 1000
            is_paused := true }
          heap := ⟨0, 0⟩, start_tick := 0, pause_start_tick := 300
          now := 800, applied := [] }).1.applied =
      [] ++ [compute_frame { zeroContext with
            loop := true, exec_cb := true, data_loaded := true
            start_frame := 0, end_frame := 10, duration_ms := 1000
            is_paused := true } (300 - 0)] ∧
    (loop_iter (fun _ => false)
        { ctx := { zeroContext with
            loop := true, exec_cb := true, data_loaded := true
            start_frame := 0, end_frame := 10, duration_ms := 1000
            is_paused := true }
          heap := ⟨0, 0⟩, start_tick := 0, pause_start_tick := 300
          now := 800, applied := [] }).1.ctx.is_paused = false ∧
    (loop_iter (fun _ => false)
        { ctx := { zeroContext with
            loop := true, exec_cb := true, data_loaded := true
            start_frame := 0, end_frame := 10, duration_ms := 1000
            is_paused := true }
          heap := ⟨0, 0⟩, start_tick := 0, pause_start_tick := 300
          now := 800, applied := [] }).2 = false :=
  C6_pause_resume_no_jump (fun _ => false)
    { ctx := { zeroContext with
        loop := true, exec_cb := true, data_loaded := true
        start_frame := 0, end_frame := 10, duration_ms := 1000
        is_paused := true }
      heap := ⟨0, 0⟩, start_tick := 0, pause_start_tick := 300
      now := 800, applied := [] }
    rfl rfl rfl rfl (by decide) (by decide)

/-- C8: a widget that starts hidden (`initial_hidden = true`) with
`autostart = true` allocates nothing at initialisation — no pixel buffer,
no worker stack/TCB, no worker handle, heap untouched — and the
draw-begin event (delivered by LVGL only once the widget is visible)
fires with buffer and worker handle both null, so its guard passes and it
performs the first launch, which (when the allocator and spawn succeed)
allocates the buffer. -/
theorem C8_hidden_init_defers_allocation (env env2 : LaunchEnv) (loop : Bool)
    (width height : Nat) (h : Heap) :
    (lottie_init env true loop true width height h).2.2 = true ∧
    (lottie_init env true loop true width height h).1.pixel_buffer = false ∧
    (lottie_init env true loop true width height h).1.task_stack = false ∧
    (lottie_init env true loop true width height h).1.task_tcb = false ∧
    (lottie_init env true loop true width height h).1.task_handle = false ∧
    (lottie_init env true loop true width height h).2.1 = h ∧
    (lottie_widget_draw_cb env2 (lottie_init env true loop true width height h).1
      (lottie_init env true loop true width height h).2.1).launched = true ∧
    (env2 = ⟨true, true, true, true⟩ →
      (lottie_widget_draw_cb env2
        (lottie_init env true loop true width height h).1
        (lottie_init env true loop true width height h).2.1).ctx.pixel_buffer
          = true ∧
      (lottie_widget_draw_cb env2
        (lottie_init env true loop true width height h).1
        (lottie_init env true loop true width height h).2.1).ctx.task_handle
          = true ∧
      (lottie_widget_draw_cb env2
        (lottie_init env true loop true width height h).1
        (lottie_init env true loop true width height h).2.1).heap.allocs
          = h.allocs + 3) := by
  refine ⟨rfl, rfl, rfl, rfl, rfl, rfl, ?_, ?_⟩
  · simp [lottie_widget_draw_cb, lottie_init, zeroContext]
  · rintro rfl
    refine ⟨rfl, rfl, ?_⟩
    show (((h.alloc).alloc).alloc).allocs = h.allocs + 3
    simp [Heap.alloc]

/-- C8 witness: concrete hidden-start widget; the deferred launch on the
draw event allocates the buffer. -/
theorem C8_witness :
    (lottie_widget_draw_cb ⟨true, true, true, true⟩
      (lottie_init ⟨true, true, true, true⟩ true false true 4 4 ⟨0, 0⟩).1
      (lottie_init ⟨true, true, true, true⟩ true false true 4 4 ⟨0, 0⟩).2.1).ctx.pixel_buffer
        = true :=
  ((C8_hidden_init_defers_allocation ⟨true, true, true, true⟩
    ⟨true, true, true, true⟩ false 4 4 ⟨0, 0⟩).2.2.2.2.2.2.2 rfl).1

/-- C10: for all captured parameters with `end > start` and
`duration > 0`, (i) in looping mode the computed frame always lies in
`[start, end-1]`, (ii) in non-looping mode it lies in `[start, end-1]`
while `elapsed < duration`, (iii) every frame value passed to the
apply-frame callback over any run of the playback loop lies in
`[start, end]`, and (iv) the non-loop completion application passes
exactly `end`. -/
theorem C10_applied_frames_in_range :
    (∀ (c : LottieContext) (t : Nat),
      c.start_frame < c.end_frame → 0 < c.duration_ms →
      (c.loop = true →
        c.start_frame ≤ compute_frame c t ∧
        compute_frame c t ≤ c.end_frame - 1) ∧
      (c.loop = false → t < c.duration_ms →
        c.start_frame ≤ compute_frame c t ∧
        compute_frame c t ≤ c.end_frame - 1)) ∧
    (∀ (hidden : Nat → Bool) (fuel : Nat) (s : LoopState),
      s.ctx.start_frame < s.ctx.end_frame → 0 < s.ctx.duration_ms →
      s.applied = [] →
      ∀ x ∈ (run_loop hidden fuel s).1.applied,
        s.ctx.start_frame ≤ x ∧ x ≤ s.ctx.end_frame) ∧
    (∀ (hidden : Nat → Bool) (s : LoopState),
      s.ctx.stop_requested = false → s.ctx.is_paused = false →
      hidden s.now = false → s.ctx.loop = false →
      s.ctx.duration_ms ≤ s.now - s.start_tick →
      (loop_iter hidden s).1.applied = s.applied ++ [s.ctx.end_frame]) := by
  refine ⟨?_, ?_, ?_⟩
  · intro c t hse hD
    constructor
    · intro hL
      exact compute_frame_bounds c t hse hD (fun hl => by rw [hL] at hl; cases hl)
    · intro hL ht
      exact compute_frame_bounds c t hse hD (fun _ => ht)
  · intro hidden fuel s hse hD happ
    exact run_loop_applied_bounds hidden fuel s hse hD (by simp [happ])
  · intro hidden s hstop hpause hhid hloop hge
    rw [loop_iter_visible_complete hidden s hstop hpause hhid hloop hge]

/-- C10 witness: the boundary instance `start=0, end=10, duration=1000`:
in non-loop mode at `t = 999` the frame lies within `[0, 9]`, and the
completion iteration at elapsed 1000 applies exactly frame 10. -/
theorem C10_witness :
    (0 ≤ compute_frame { zeroContext with
        start_frame := 0, end_frame := 10, duration_ms := 1000 } 999 ∧
      compute_frame { zeroContext with
        start_frame := 0, end_frame := 10, duration_ms := 1000 } 999 ≤ 10 - 1) ∧
    (loop_iter (fun _ => false)
        { ctx := { zeroContext with
            start_frame := 0, end_frame := 10, duration_ms := 1000
            exec_cb := true, data_loaded := true }
          heap := ⟨0, 0⟩, start_tick := 0, pause_start_tick := 0
          now := 1000, applied := [] }).1.applied = [] ++ [(10 : Int)] := by
  constructor
  · exact ((C10_applied_frames_in_range.1 { zeroContext with
      start_frame := 0, end_frame := 10, duration_ms := 1000 } 999
      (by decide) (by decide)).2 rfl (by decide))
  · exact C10_applied_frames_in_range.2.2 (fun _ => false)
      { ctx := { zeroContext with
          start_frame := 0, end_frame := 10, duration_ms := 1000
          exec_cb := true, data_loaded := true }
        heap := ⟨0, 0⟩, start_tick := 0, pause_start_tick := 0
        now := 1000, applied := [] }
      rfl rfl rfl rfl (by decide)

theorem free_resources_heap_frees (c : LottieContext) (h : Heap) :
    (lottie_free_resources c h).2.frees =
      h.frees + ((if c.task_stack then 1 else 0) +
        (if c.task_tcb then 1 else 0) + (if c.pixel_buffer then 1 else 0)) := by
  cases hs : c.task_stack <;> cases ht : c.task_tcb <;>
    cases hp : c.pixel_buffer <;>
    simp [lottie_free_resources, hs, ht, hp, Heap.free]

theorem free_resources_heap_allocs (c : LottieContext) (h : Heap) :
    (lottie_free_resources c h).2.allocs = h.allocs := by
  cases hs : c.task_stack <;> cases ht : c.task_tcb <;>
    cases hp : c.pixel_buffer <;>
    simp [lottie_free_resources, hs, ht, hp, Heap.free]

/-- C4: starting from a launched pair with a valid captured animation and
`auto_start` set, a widget that is invisible at every tick makes the
worker treat the invisibility (which exceeds the 2000 ms grace period) as
an implicit stop: within a bounded number of iterations (fuel 22
suffices) the loop exits, the worker itself frees the pixel buffer, task
stack and TCB (three frees, no external call), resets the flags — the
IDLE state — and only then clears its own handle: the recorded state just
before the handle-clearing store already has all three resources freed
while the handle is still set.  No frame is ever applied. -/
theorem C4_hidden_timeout_self_frees (parse : Option AnimParams)
    (t0 fuel : Nat) (c : LottieContext) (h : Heap)
    (hd : (load_phase parse c).data_loaded = true)
    (hcb : (load_phase parse c).exec_cb = true)
    (hD : 0 < (load_phase parse c).duration_ms)
    (hse : (load_phase parse c).start_frame < (load_phase parse c).end_frame)
    (hauto : c.auto_start = true) (hstop : c.stop_requested = false)
    (hpause : c.is_paused = false) (hpb : c.pixel_buffer = true)
    (hts : c.task_stack = true) (htc : c.task_tcb = true)
    (hth : c.task_handle = true) (hfuel : 22 ≤ fuel) :
    (lottie_load_task (fun _ => true) parse t0 fuel c h).exit =
      TaskExit.loopDone ∧
    (lottie_load_task (fun _ => true) parse t0 fuel c h).ctx.pixel_buffer = false ∧
    (lottie_load_task (fun _ => true) parse t0 fuel c h).ctx.task_stack = false ∧
    (lottie_load_task (fun _ => true) parse t0 fuel c h).ctx.task_tcb = false ∧
    (lottie_load_task (fun _ => true) parse t0 fuel c h).ctx.task_handle = false ∧
    (lottie_load_task (fun _ => true) parse t0 fuel c h).ctx.stop_requested = false ∧
    (lottie_load_task (fun _ => true) parse t0 fuel c h).ctx.is_paused = false ∧
    (lottie_load_task (fun _ => true) parse t0 fuel c h).applied = [] ∧
    (lottie_load_task (fun _ => true) parse t0 fuel c h).heap.frees = h.frees + 3 ∧
    (lottie_load_task (fun _ => true) parse t0 fuel c h).heap.allocs = h.allocs ∧
    (∃ cpre, (lottie_load_task (fun _ => true) parse t0 fuel c h).ctx_before_handle_clear
        = some cpre ∧
      cpre.pixel_buffer = false ∧ cpre.task_stack = false ∧
      cpre.task_tcb = false ∧ cpre.task_handle = true) := by
  have hlf := load_phase_fields parse c
  cases fuel with
  | zero => exact absurd hfuel (by omega)
  | succ m =>
  have hi1 : loop_iter (fun _ => true)
      { ctx := load_phase parse c, heap := h, start_tick := t0
        pause_start_tick := 0, now := t0, applied := [] } =
      ({ ctx := { load_phase parse c with is_paused := true }, heap := h
         start_tick := t0, pause_start_tick := t0, now := t0 + 100
         applied := [] }, false) := by
    unfold loop_iter
    dsimp only
    rw [if_neg (show ¬((load_phase parse c).stop_requested = true) by
      simp [hlf.2.2.2.2.1, hstop])]
    rw [if_pos (show (true : Bool) = true from rfl)]
    rw [if_pos (show (!(load_phase parse c).is_paused) = true by
      simp [hlf.2.2.2.2.2.1, hpause])]
    dsimp only
    rw [if_neg (show ¬(t0 - t0 > 2000) by omega)]
  have hrun := run_loop_hidden_exits m
    { ctx := { load_phase parse c with is_paused := true }, heap := h
      start_tick := t0, pause_start_tick := t0, now := t0 + 100
      applied := [] } 100
    (by simp [hlf.2.2.2.2.1, hstop]) rfl rfl (by omega) (by omega)
  have hrl : run_loop (fun _ => true) (m + 1)
      { ctx := load_phase parse c, heap := h, start_tick := t0
        pause_start_tick := 0, now := t0, applied := [] } =
      run_loop (fun _ => true) m
        { ctx := { load_phase parse c with is_paused := true }, heap := h
          start_tick := t0, pause_start_tick := t0, now := t0 + 100
          applied := [] } := by
    simp [run_loop, hi1]
  have hex : (run_loop (fun _ => true) (m + 1)
      { ctx := load_phase parse c, heap := h, start_tick := t0
        pause_start_tick := 0, now := t0, applied := [] }).2 = true := by
    rw [hrl]; exact hrun.1
  unfold lottie_load_task
  dsimp only
  rw [if_neg (show ¬((!(load_phase parse c).data_loaded ||
      !(load_phase parse c).exec_cb ||
      decide ((load_phase parse c).duration_ms = 0) ||
      decide ((load_phase parse c).end_frame ≤
        (load_phase parse c).start_frame)) = true) by
    simp [hd, hcb]; omega)]
  rw [if_neg (show ¬((!(load_phase parse c).auto_start) = true) by
    simp [hlf.2.2.2.2.2.2.1, hauto])]
  rw [if_pos hex, hrl, hrun.2.1, hrun.2.2.1, hrun.2.2.2.1]
  refine ⟨rfl, ?_, ?_, ?_, ?_, ?_, ?_, rfl, ?_, ?_, ?_⟩
  · simp [free_resources_pixel_buffer]
  · simp [free_resources_task_stack]
  · simp [free_resources_task_tcb]
  · rfl
  · simp [free_resources_stop]
  · simp [free_resources_paused]
  · simp [free_resources_heap_frees, hlf.1, hlf.2.1, hlf.2.2.1, hpb, hts, htc]
  · simp [free_resources_heap_allocs]
  · refine ⟨_, rfl, ?_, ?_, ?_, ?_⟩
    · simp [free_resources_pixel_buffer]
    · simp [free_resources_task_stack]
    · simp [free_resources_task_tcb]
    · simp [free_resources_task_handle, hlf.2.2.2.1, hth]

/-- C4 witness: a concrete launched context, invisible from the start;
with fuel 22 the task self-stops and reaches `loopDone`. -/
theorem C4_witness :
    (lottie_load_task (fun _ => true) none 0 22
        { zeroContext with
          auto_start := true, exec_cb := true, data_loaded := true
          start_frame := 0, end_frame := 10, duration_ms := 1000
          pixel_buffer := true, task_stack := true, task_tcb := true
          task_handle := true } ⟨3, 0⟩).exit = TaskExit.loopDone :=
  (C4_hidden_timeout_self_frees none 0 22
    { zeroContext with
      auto_start := true, exec_cb := true, data_loaded := true
      start_frame := 0, end_frame := 10, duration_ms := 1000
      pixel_buffer := true, task_stack := true, task_tcb := true
      task_handle := true } ⟨3, 0⟩
    (by decide) (by decide) (by decide) (by decide) rfl rfl rfl rfl rfl rfl rfl
    (by omega)).1

/-- C5: the Frame Pacer.  (i) In looping mode the computed frame is
`start + floor((end - start) * (t mod D) / D)` (floor over the
rationals); (ii) in non-looping mode, while `t < D`, it is
`start + floor((end - start) * t / D)`; (iii) in non-looping mode the
task run over a visible widget reaches completion: the loop exits (no
further frame applications are possible afterwards) and the final frame
`end` is applied exactly once, as the last application;
(iv) concretely: with `start=0, end=10, D=1000, loop=false` the frame at
`t=999` is 9 and a full run applies exactly `0..9` followed by one final
`10`; with `loop=true, start=0, end=4, D=400` the frame at `t=500` is 1. -/
theorem C5_frame_pacer :
    (∀ (c : LottieContext) (t : Nat), c.loop = true → 0 < c.duration_ms →
      c.start_frame < c.end_frame →
      compute_frame c t = c.start_frame +
        ⌊(((c.end_frame - c.start_frame : Int) : ℚ) *
          ((t % c.duration_ms : Nat) : ℚ)) / ((c.duration_ms : Nat) : ℚ)⌋) ∧
    (∀ (c : LottieContext) (t : Nat), c.loop = false → 0 < c.duration_ms →
      c.start_frame < c.end_frame → t < c.duration_ms →
      compute_frame c t = c.start_frame +
        ⌊(((c.end_frame - c.start_frame : Int) : ℚ) * (t : ℚ)) /
          ((c.duration_ms : Nat) : ℚ)⌋) ∧
    (∀ (parse : Option AnimParams) (t0 fuel : Nat) (c : LottieContext)
        (h : Heap),
      (load_phase parse c).data_loaded = true →
      (load_phase parse c).exec_cb = true →
      0 < (load_phase parse c).duration_ms →
      (load_phase parse c).start_frame < (load_phase parse c).end_frame →
      c.loop = false → c.auto_start = true → c.stop_requested = false →
      c.is_paused = false → 1 ≤ fuel →
      (load_phase parse c).duration_ms ≤ 16 * (fuel - 1) →
      (lottie_load_task (fun _ => false) parse t0 fuel c h).exit =
        TaskExit.loopDone ∧
      (lottie_load_task (fun _ => false) parse t0 fuel c h).applied.count
        (load_phase parse c).end_frame = 1 ∧
      (lottie_load_task (fun _ => false) parse t0 fuel c h).applied.getLast?
        = some (load_phase parse c).end_frame) ∧
    (compute_frame { zeroContext with
        start_frame := 0, end_frame := 10, duration_ms := 1000 } 999 = 9 ∧
      (lottie_load_task (fun _ => false) none 0 20
        { zeroContext with
          auto_start := true, exec_cb := true, data_loaded := true
          start_frame := 0, end_frame := 10, duration_ms := 1000
          pixel_buffer := true, task_stack := true, task_tcb := true
          task_handle := true } ⟨3, 0⟩).applied =
        [0, 1, 2, 3, 4, 5, 6, 7, 8, 9, 10] ∧
      compute_frame { zeroContext with
        loop := true, start_frame := 0, end_frame := 4
        duration_ms := 400 } 500 = 1) := by
  refine ⟨?_, ?_, ?_, by decide, by decide, by decide⟩
  · intro c t hL hD hse
    have htfe : ((total_frames c : Nat) : Int) = c.end_frame - c.start_frame := by
      unfold total_frames; omega
    unfold compute_frame
    dsimp only
    rw [if_pos hL]
    congr 1
    have h1 : ((c.end_frame - c.start_frame : Int) : ℚ) =
        ((total_frames c : Nat) : ℚ) := by
      rw [← htfe]; push_cast; ring
    rw [h1]
    rw [show ((total_frames c : Nat) : ℚ) * ((t % c.duration_ms : Nat) : ℚ) /
        ((c.duration_ms : Nat) : ℚ) =
        (((total_frames c * (t % c.duration_ms) : Nat)) : ℚ) /
          ((c.duration_ms : Nat) : ℚ) by push_cast; ring]
    rw [floor_nat_div]
  · intro c t hL hD hse ht
    have htfe : ((total_frames c : Nat) : Int) = c.end_frame - c.start_frame := by
      unfold total_frames; omega
    unfold compute_frame
    dsimp only
    rw [if_neg (by simp [hL])]
    congr 1
    have h1 : ((c.end_frame - c.start_frame : Int) : ℚ) =
        ((total_frames c : Nat) : ℚ) := by
      rw [← htfe]; push_cast; ring
    rw [h1]
    rw [show ((total_frames c : Nat) : ℚ) * (t : ℚ) /
        ((c.duration_ms : Nat) : ℚ) =
        (((total_frames c * t : Nat)) : ℚ) / ((c.duration_ms : Nat) : ℚ) by
      push_cast; ring]
    rw [floor_nat_div]
  · intro parse t0 fuel c h hd hcb hD hse hloopc hauto hstop hpause hf1 hflen
    have hlf := load_phase_fields parse c
    have hd16 := frame_delay_ms_bounds (load_phase parse c)
    have hos := run_loop_visible_oneshot fuel
      { ctx := load_phase parse c, heap := h, start_tick := t0
        pause_start_tick := 0, now := t0, applied := [] }
      (by simp [hlf.2.2.2.2.2.2.2, hloopc])
      (by simp [hlf.2.2.2.2.1, hstop])
      (by simp [hlf.2.2.2.2.2.1, hpause])
      hD hse (le_refl t0)
      (by
        show (load_phase parse c).duration_ms ≤
          (t0 - t0) + frame_delay_ms (load_phase parse c) * (fuel - 1)
        have hmm := Nat.mul_le_mul_right (fuel - 1) hd16.1
        omega)
      hf1
    obtain ⟨hex, mid, happ, hbnd⟩ := hos
    unfold lottie_load_task
    dsimp only
    rw [if_neg (show ¬((!(load_phase parse c).data_loaded ||
        !(load_phase parse c).exec_cb ||
        decide ((load_phase parse c).duration_ms = 0) ||
        decide ((load_phase parse c).end_frame ≤
          (load_phase parse c).start_frame)) = true) by
      simp [hd, hcb]; omega)]
    rw [if_neg (show ¬((!(load_phase parse c).auto_start) = true) by
      simp [hlf.2.2.2.2.2.2.1, hauto])]
    rw [if_pos hex]
    have hnotin : (load_phase parse c).end_frame ∉ mid := fun hmem => by
      have hb2 := hbnd _ hmem
      dsimp only at hb2
      omega
    refine ⟨rfl, ?_, ?_⟩
    · show (run_loop (fun _ => false) fuel
        { ctx := load_phase parse c, heap := h, start_tick := t0
          pause_start_tick := 0, now := t0
          applied := [] }).1.applied.count (load_phase parse c).end_frame = 1
      rw [happ]
      simp [List.count_append, List.count_eq_zero.mpr hnotin]
    · show (run_loop (fun _ => false) fuel
        { ctx := load_phase parse c, heap := h, start_tick := t0
          pause_start_tick := 0, now := t0
          applied := [] }).1.applied.getLast? =
          some (load_phase parse c).end_frame
      rw [happ]
      simp [List.getLast?_concat]

/-- C5 witness: the one-shot run with `start=0, end=10, D=1000` from a
concrete launched context reaches completion with frame 10 applied
exactly once, as the last application. -/
theorem C5_witness :
    (lottie_load_task (fun _ => false) none 0 64
        { zeroContext with
          auto_start := true, exec_cb := true, data_loaded := true
          start_frame := 0, end_frame := 10, duration_ms := 1000
          pixel_buffer := true, task_stack := true, task_tcb := true
          task_handle := true } ⟨3, 0⟩).exit = TaskExit.loopDone ∧
    (lottie_load_task (fun _ => false) none 0 64
        { zeroContext with
          auto_start := true, exec_cb := true, data_loaded := true
          start_frame := 0, end_frame := 10, duration_ms := 1000
          pixel_buffer := true, task_stack := true, task_tcb := true
          task_handle := true } ⟨3, 0⟩).applied.count
      (load_phase none { zeroContext with
          auto_start := true, exec_cb := true, data_loaded := true
          start_frame := 0, end_frame := 10, duration_ms := 1000
          pixel_buffer := true, task_stack := true, task_tcb := true
          task_handle := true }).end_frame = 1 :=
  have hr := C5_frame_pacer.2.2.1 none 0 64
    { zeroContext with
      auto_start := true, exec_cb := true, data_loaded := true
      start_frame := 0, end_frame := 10, duration_ms := 1000
      pixel_buffer := true, task_stack := true, task_tcb := true
      task_handle := true } ⟨3, 0⟩
    (by decide) (by decide) (by decide) (by decide) rfl rfl rfl rfl
    (by omega) (by decide)
  ⟨hr.1, hr.2.1⟩

end LottieLoader
